import Mathlib

/-!
The DLP command-line sample (`dlp/main.go`)

A shallow embedding of `main.go`: the request and response messages the
program builds and reads, the injected client, the six operations and the
dispatcher of `main`, followed by theorems about them.

Conventions of the embedding.

* A Go `string` is a Lean `String`, so the texts considered are valid UTF-8; a
  Go `[]byte` is a list of bytes; the conversion `[]byte(s)` is the UTF-8
  encoding of `s`, and `%s` writes the bytes of its argument as they are.
* The mutable surroundings of the program are one `World` value that every
  operation transforms: the bytes written so far to the writer `w` handed to
  the operations (`os.Stdout` in `main`), the bytes written to `os.Stderr`,
  the remote calls issued on the client, and whether the client was closed.
  Writes to `w` do not fail.
* A computation either returns, or stops the process (`os.Exit`, reached
  directly or through `log.Fatal`), or panics (index out of range). The text
  the runtime prints for a panic is not part of the model.
* The client is given by the answer of each remote operation to a request; a
  remote call records the request in the world and yields that answer: a
  response without error, or an error without response.
* `flag.Parse()` is taken by its result, the list of positional arguments.
* Message fields the program neither sets nor reads stay at their zero value
  and are left out of the message types; elements of repeated fields are
  never nil.
-/

namespace Dlp

/-- A Go byte slice. -/
abbrev Bytes := List UInt8

/-- The conversion `[]byte(s)`: the UTF-8 bytes of the string. -/
def bytesOf (s : String) : Bytes := s.toUTF8.data.toList

/-! ## Messages of `dlppb` -/

namespace dlppb

/-- The enum `Likelihood`. -/
inductive Likelihood
  | LIKELIHOOD_UNSPECIFIED
  | VERY_UNLIKELY
  | UNLIKELY
  | POSSIBLE
  | LIKELY
  | VERY_LIKELY
  deriving DecidableEq, Repr

/-- The message `InfoType`. -/
structure InfoType where
  Name : String
  deriving DecidableEq, Repr

/-- The getter `(*InfoType).GetName`: the empty string on a nil receiver. -/
def InfoType.GetName : Option InfoType → String
  | some x => x.Name
  | none => ""

/-- The message `InspectConfig`. -/
structure InspectConfig where
  InfoTypes : List InfoType
  MinLikelihood : Likelihood
  deriving DecidableEq, Repr

/-- The oneof `data_item` of `ContentItem`; the payload of a table is never
read by the program. -/
inductive ContentItem_DataItem
  | Data (Data : Bytes)
  | Value (Value : String)
  | Table
  deriving DecidableEq, Repr

/-- The message `ContentItem`. -/
structure ContentItem where
  Type_ : String
  DataItem : Option ContentItem_DataItem
  deriving DecidableEq, Repr

/-- The getter `(*ContentItem).GetData`: the bytes when the oneof holds
`Data`, the nil slice otherwise. -/
def ContentItem.GetData (m : ContentItem) : Bytes :=
  match m.DataItem with
  | some (.Data d) => d
  | _ => []

/-- The message `InspectContentRequest`. -/
structure InspectContentRequest where
  InspectConfig : Option InspectConfig
  Items : List ContentItem
  deriving DecidableEq, Repr

/-- The message `Finding`. -/
structure Finding where
  Quote : String
  InfoType : Option InfoType
  Likelihood : Likelihood
  deriving DecidableEq, Repr

/-- The getter `(*Finding).GetInfoType`. -/
def Finding.GetInfoType (m : Finding) : Option dlppb.InfoType := m.InfoType

/-- The message `InspectResult`. -/
structure InspectResult where
  Findings : List Finding
  FindingsTruncated : Bool
  deriving DecidableEq, Repr

/-- The getter `(*InspectResult).GetFindings`. -/
def InspectResult.GetFindings (m : InspectResult) : List Finding := m.Findings

/-- The message `InspectContentResponse`. -/
structure InspectContentResponse where
  Results : List InspectResult
  deriving DecidableEq, Repr

/-- The getter `(*InspectContentResponse).GetResults`. -/
def InspectContentResponse.GetResults (m : InspectContentResponse) :
    List InspectResult := m.Results

/-- The message `RedactContentRequest.ReplaceConfig`. -/
structure RedactContentRequest_ReplaceConfig where
  InfoType : Option InfoType
  ReplaceWith : String
  deriving DecidableEq, Repr

/-- The message `RedactContentRequest`. -/
structure RedactContentRequest where
  InspectConfig : Option InspectConfig
  Items : List ContentItem
  ReplaceConfigs : List RedactContentRequest_ReplaceConfig
  deriving DecidableEq, Repr

/-- The message `RedactContentResponse`. -/
structure RedactContentResponse where
  Items : List ContentItem
  deriving DecidableEq, Repr

/-- The getter `(*RedactContentResponse).GetItems`. -/
def RedactContentResponse.GetItems (m : RedactContentResponse) :
    List ContentItem := m.Items

/-- The message `ListInfoTypesRequest`. -/
structure ListInfoTypesRequest where
  Category : String
  deriving DecidableEq, Repr

/-- The message `CategoryDescription`. -/
structure CategoryDescription where
  Name : String
  DisplayName : String
  deriving DecidableEq, Repr

/-- The getter `(*CategoryDescription).GetName`. -/
def CategoryDescription.GetName (m : CategoryDescription) : String := m.Name

/-- The getter `(*CategoryDescription).GetDisplayName`. -/
def CategoryDescription.GetDisplayName (m : CategoryDescription) : String :=
  m.DisplayName

/-- The message `InfoTypeDescription`. -/
structure InfoTypeDescription where
  Name : String
  DisplayName : String
  Categories : List CategoryDescription
  deriving DecidableEq, Repr

/-- The getter `(*InfoTypeDescription).GetName`. -/
def InfoTypeDescription.GetName (m : InfoTypeDescription) : String := m.Name

/-- The message `ListInfoTypesResponse`. -/
structure ListInfoTypesResponse where
  InfoTypes : List InfoTypeDescription
  deriving DecidableEq, Repr

/-- The getter `(*ListInfoTypesResponse).GetInfoTypes`. -/
def ListInfoTypesResponse.GetInfoTypes (m : ListInfoTypesResponse) :
    List InfoTypeDescription := m.InfoTypes

/-- The message `ListRootCategoriesRequest`; the program sets none of its
fields. -/
structure ListRootCategoriesRequest where
  deriving DecidableEq, Repr

/-- The message `ListRootCategoriesResponse`. -/
structure ListRootCategoriesResponse where
  Categories : List CategoryDescription
  deriving DecidableEq, Repr

/-- The getter `(*ListRootCategoriesResponse).GetCategories`. -/
def ListRootCategoriesResponse.GetCategories (m : ListRootCategoriesResponse) :
    List CategoryDescription := m.Categories

/-- The message `CharacterMaskConfig`. -/
structure CharacterMaskConfig where
  MaskingCharacter : String
  deriving DecidableEq, Repr

/-- The message `KmsWrappedCryptoKey`. -/
structure KmsWrappedCryptoKey where
  WrappedKey : Bytes
  CryptoKeyName : String
  deriving DecidableEq, Repr

/-- The oneof `source` of `CryptoKey`; the payloads of the alternatives the
program never builds are left out. -/
inductive CryptoKey_Source
  | Transient
  | Unwrapped
  | KmsWrapped (KmsWrapped : KmsWrappedCryptoKey)
  deriving DecidableEq, Repr

/-- The message `CryptoKey`. -/
structure CryptoKey where
  Source : Option CryptoKey_Source
  deriving DecidableEq, Repr

/-- The enum `CryptoReplaceFfxFpeConfig.FfxCommonNativeAlphabet`. -/
inductive CryptoReplaceFfxFpeConfig_FfxCommonNativeAlphabet
  | FFX_COMMON_NATIVE_ALPHABET_UNSPECIFIED
  | NUMERIC
  | HEXADECIMAL
  | UPPER_CASE_ALPHA_NUMERIC
  | ALPHA_NUMERIC
  deriving DecidableEq, Repr

/-- The oneof `alphabet` of `CryptoReplaceFfxFpeConfig`; the payloads of the
alternatives the program never builds are left out. -/
inductive CryptoReplaceFfxFpeConfig_Alphabet
  | CommonAlphabet (CommonAlphabet : CryptoReplaceFfxFpeConfig_FfxCommonNativeAlphabet)
  | CustomAlphabet
  | Radix
  deriving DecidableEq, Repr

/-- The message `CryptoReplaceFfxFpeConfig`. -/
structure CryptoReplaceFfxFpeConfig where
  CryptoKey : Option CryptoKey
  Alphabet : Option CryptoReplaceFfxFpeConfig_Alphabet
  deriving DecidableEq, Repr

/-- The oneof `transformation` of `PrimitiveTransformation`, with the two
alternatives the program builds. -/
inductive PrimitiveTransformation_Transformation
  | CharacterMaskConfig (CharacterMaskConfig : CharacterMaskConfig)
  | CryptoReplaceFfxFpeConfig (CryptoReplaceFfxFpeConfig : CryptoReplaceFfxFpeConfig)
  deriving DecidableEq, Repr

/-- The message `PrimitiveTransformation`. -/
structure PrimitiveTransformation where
  Transformation : Option PrimitiveTransformation_Transformation
  deriving DecidableEq, Repr

/-- The message `InfoTypeTransformations.InfoTypeTransformation`. -/
structure InfoTypeTransformations_InfoTypeTransformation where
  InfoTypes : List InfoType
  PrimitiveTransformation : Option PrimitiveTransformation
  deriving DecidableEq, Repr

/-- The message `InfoTypeTransformations`. -/
structure InfoTypeTransformations where
  Transformations : List InfoTypeTransformations_InfoTypeTransformation
  deriving DecidableEq, Repr

/-- The oneof `transformation` of `DeidentifyConfig`, with the alternative the
program builds. -/
inductive DeidentifyConfig_Transformation
  | InfoTypeTransformations (InfoTypeTransformations : InfoTypeTransformations)
  deriving DecidableEq, Repr

/-- The message `DeidentifyConfig`. -/
structure DeidentifyConfig where
  Transformation : Option DeidentifyConfig_Transformation
  deriving DecidableEq, Repr

/-- The message `DeidentifyContentRequest`. -/
structure DeidentifyContentRequest where
  DeidentifyConfig : Option DeidentifyConfig
  InspectConfig : Option InspectConfig
  Items : List ContentItem
  deriving DecidableEq, Repr

/-- The message `DeidentifyContentResponse`. -/
structure DeidentifyContentResponse where
  Items : List ContentItem
  deriving DecidableEq, Repr

/-- The getter `(*DeidentifyContentResponse).GetItems`. -/
def DeidentifyContentResponse.GetItems (m : DeidentifyContentResponse) :
    List ContentItem := m.Items

end dlppb

/-! ## The process -/

/-- A Go `error` value, by its message. -/
structure GoError where
  Error : String
  deriving DecidableEq, Repr

/-- A remote call issued on the client, with its request. -/
inductive Call
  | InspectContent (req : dlppb.InspectContentRequest)
  | RedactContent (req : dlppb.RedactContentRequest)
  | DeidentifyContent (req : dlppb.DeidentifyContentRequest)
  | ListInfoTypes (req : dlppb.ListInfoTypesRequest)
  | ListRootCategories (req : dlppb.ListRootCategoriesRequest)
  deriving DecidableEq, Repr

/-- The surroundings the program acts on: the bytes written to the writer `w`
of the operations, the bytes written to `os.Stderr`, the remote calls issued on
the client in order, whether the client was closed, and the header (date and
time) the standard logger puts before a message. -/
structure World where
  out : Bytes
  err : Bytes
  calls : List Call
  closed : Bool
  logHeader : String
  deriving DecidableEq, Repr

/-- A run-time panic. -/
inductive RuntimeError
  | indexOutOfRange (index length : Nat)
  deriving DecidableEq, Repr

/-- The ways a computation stops without returning. -/
inductive Halt
  | exit (code : Nat)
  | panic (e : RuntimeError)
  deriving DecidableEq, Repr

/-- A Go computation: from a world, a returned value or a halt, and the world
it leaves. -/
def Go (α : Type) : Type := World → Except Halt α × World

/-- Return a value, leaving the world as it is. -/
def Go.pure {α : Type} (a : α) : Go α := fun w => (.ok a, w)

/-- Sequencing: a halt of the first computation stops the second. -/
def Go.bind {α β : Type} (m : Go α) (f : α → Go β) : Go β := fun w =>
  match m w with
  | (.ok a, w1) => f a w1
  | (.error h, w1) => (.error h, w1)

instance : Monad Go where
  pure := Go.pure
  bind := Go.bind

/-- The dlp client: each remote operation answers a request with a response or
an error. -/
structure Client where
  InspectContent : dlppb.InspectContentRequest →
    Except GoError dlppb.InspectContentResponse
  RedactContent : dlppb.RedactContentRequest →
    Except GoError dlppb.RedactContentResponse
  DeidentifyContent : dlppb.DeidentifyContentRequest →
    Except GoError dlppb.DeidentifyContentResponse
  ListInfoTypes : dlppb.ListInfoTypesRequest →
    Except GoError dlppb.ListInfoTypesResponse
  ListRootCategories : dlppb.ListRootCategoriesRequest →
    Except GoError dlppb.ListRootCategoriesResponse

/-- The call `client.InspectContent(ctx, rcr)`: the call is recorded and the
client's answer returned. -/
def Client.callInspectContent (client : Client)
    (req : dlppb.InspectContentRequest) :
    Go (Except GoError dlppb.InspectContentResponse) := fun w =>
  (.ok (client.InspectContent req),
    { w with calls := w.calls ++ [.InspectContent req] })

/-- The call `client.RedactContent(ctx, rcr)`. -/
def Client.callRedactContent (client : Client)
    (req : dlppb.RedactContentRequest) :
    Go (Except GoError dlppb.RedactContentResponse) := fun w =>
  (.ok (client.RedactContent req),
    { w with calls := w.calls ++ [.RedactContent req] })

/-- The call `client.DeidentifyContent(ctx, rcr)`. -/
def Client.callDeidentifyContent (client : Client)
    (req : dlppb.DeidentifyContentRequest) :
    Go (Except GoError dlppb.DeidentifyContentResponse) := fun w =>
  (.ok (client.DeidentifyContent req),
    { w with calls := w.calls ++ [.DeidentifyContent req] })

/-- The call `client.ListInfoTypes(ctx, rcr)`. -/
def Client.callListInfoTypes (client : Client)
    (req : dlppb.ListInfoTypesRequest) :
    Go (Except GoError dlppb.ListInfoTypesResponse) := fun w =>
  (.ok (client.ListInfoTypes req),
    { w with calls := w.calls ++ [.ListInfoTypes req] })

/-- The call `client.ListRootCategories(ctx, rcr)`. -/
def Client.callListRootCategories (client : Client)
    (req : dlppb.ListRootCategoriesRequest) :
    Go (Except GoError dlppb.ListRootCategoriesResponse) := fun w =>
  (.ok (client.ListRootCategories req),
    { w with calls := w.calls ++ [.ListRootCategories req] })

/-- Writing formatted bytes to the writer `w`: `fmt.Fprintf(w, ...)`. -/
def Fprintf (b : Bytes) : Go Unit := fun w =>
  (.ok (), { w with out := w.out ++ b })

/-- Writing formatted bytes to `os.Stderr`: `fmt.Fprintf(os.Stderr, ...)`. -/
def FprintfStderr (b : Bytes) : Go Unit := fun w =>
  (.ok (), { w with err := w.err ++ b })

/-- The call `os.Exit(code)`. -/
def osExit {α : Type} (code : Nat) : Go α := fun w => (.error (.exit code), w)

/-- The line the standard logger writes for a message: the header, the
message, and a newline unless the message already ends in one. -/
def logLine (header : String) (msg : String) : Bytes :=
  let m := bytesOf msg
  bytesOf header ++ m ++ (if m.getLast? = some 10 then [] else [10])

/-- The call `log.Fatal(err)`: the error is logged to standard error and the
process exits with status 1. -/
def logFatal {α : Type} (e : GoError) : Go α := fun w =>
  (.error (.exit 1), { w with err := w.err ++ logLine w.logHeader e.Error })

/-- The index expression `xs[i]`: a panic when `i` is out of range. -/
def index {α : Type} (xs : List α) (i : Nat) : Go α := fun w =>
  match xs.get? i with
  | some x => (.ok x, w)
  | none => (.error (.panic (.indexOutOfRange i xs.length)), w)

/-- The statement `defer client.Close()` around the rest of `main`: the client
is closed when the rest returns or panics, and not when the process exits. -/
def deferClose (rest : Go Unit) : Go Unit := fun w =>
  match rest w with
  | (.ok a, w1) => (.ok a, { w1 with closed := true })
  | (.error (.panic e), w1) => (.error (.panic e), { w1 with closed := true })
  | (.error (.exit c), w1) => (.error (.exit c), w1)

/-- The call `flag.Arg(i)` on the positional arguments that `flag.Parse()`
leaves: the empty string when there is no such argument. -/
def flagArg (args : List String) (i : Nat) : String := (args.get? i).getD ""

/-! ## The operations of `main.go` -/

/-- The request `rcr` built in `inspect`. -/
def inspect_rcr (s : String) : dlppb.InspectContentRequest :=
  { InspectConfig := some
      { InfoTypes := [{ Name := "US_SOCIAL_SECURITY_NUMBER" }]
        MinLikelihood := .LIKELIHOOD_UNSPECIFIED }
    Items := [{ Type_ := "text/plain", DataItem := some (.Data (bytesOf s)) }] }

/-- The function `inspect`. -/
def inspect (client : Client) (s : String) : Go Unit := do
  let rcr := inspect_rcr s
  match ← client.callInspectContent rcr with
  | .error err => logFatal err
  | .ok r =>
    let fs := (← index r.GetResults 0).GetFindings
    fs.forM fun f =>
      Fprintf (bytesOf (dlppb.InfoType.GetName f.GetInfoType) ++ bytesOf "\n")

/-- The request `rcr` built in `redact`. -/
def redact_rcr (s : String) : dlppb.RedactContentRequest :=
  { InspectConfig := some
      { InfoTypes := [{ Name := "US_SOCIAL_SECURITY_NUMBER" }]
        MinLikelihood := .LIKELIHOOD_UNSPECIFIED }
    ReplaceConfigs :=
      [{ InfoType := some { Name := "US_SOCIAL_SECURITY_NUMBER" }
         ReplaceWith := "[redacted]" }]
    Items := [{ Type_ := "text/plain", DataItem := some (.Data (bytesOf s)) }] }

/-- The function `redact`. -/
def redact (client : Client) (s : String) : Go Unit := do
  let rcr := redact_rcr s
  match ← client.callRedactContent rcr with
  | .error err => logFatal err
  | .ok r =>
    Fprintf ((← index r.GetItems 0).GetData ++ bytesOf "\n")

/-- The request `rcr` built in `infoTypes`. -/
def infoTypes_rcr (s : String) : dlppb.ListInfoTypesRequest :=
  { Category := s }

/-- The function `infoTypes`. -/
def infoTypes (client : Client) (s : String) : Go Unit := do
  let rcr := infoTypes_rcr s
  match ← client.callListInfoTypes rcr with
  | .error err => logFatal err
  | .ok r =>
    r.GetInfoTypes.forM fun it =>
      Fprintf (bytesOf it.GetName ++ bytesOf "\n")

/-- The request `rcr` built in `categories`. -/
def categories_rcr : dlppb.ListRootCategoriesRequest := {}

/-- The function `categories`. -/
def categories (client : Client) : Go Unit := do
  let rcr := categories_rcr
  match ← client.callListRootCategories rcr with
  | .error err => logFatal err
  | .ok r =>
    r.GetCategories.forM fun c =>
      Fprintf (bytesOf c.GetName ++ bytesOf " (" ++ bytesOf c.GetDisplayName ++
        bytesOf ")\n")

/-- The request `rcr` built in `mask`. -/
def mask_rcr (s : String) : dlppb.DeidentifyContentRequest :=
  { DeidentifyConfig := some
      { Transformation := some (.InfoTypeTransformations
          { Transformations :=
              [{ InfoTypes := []
                 PrimitiveTransformation := some
                   { Transformation := some (.CharacterMaskConfig
                       { MaskingCharacter := "*" }) } }] }) }
    InspectConfig := none
    Items := [{ Type_ := "text/plain", DataItem := some (.Data (bytesOf s)) }] }

/-- The function `mask`. -/
def mask (client : Client) (s : String) : Go Unit := do
  let rcr := mask_rcr s
  match ← client.callDeidentifyContent rcr with
  | .error err => logFatal err
  | .ok r =>
    r.GetItems.forM fun i =>
      Fprintf (i.GetData ++ bytesOf "\n")

/-- The request `rcr` built in `deidentifyFPE`. -/
def deidentifyFPE_rcr (s wrappedKey cryptoKeyName : String) :
    dlppb.DeidentifyContentRequest :=
  { DeidentifyConfig := some
      { Transformation := some (.InfoTypeTransformations
          { Transformations :=
              [{ InfoTypes := []
                 PrimitiveTransformation := some
                   { Transformation := some (.CryptoReplaceFfxFpeConfig
                       { CryptoKey := some
                           { Source := some (.KmsWrapped
                               { WrappedKey := bytesOf wrappedKey
                                 CryptoKeyName := cryptoKeyName }) }
                         Alphabet := some (.CommonAlphabet .ALPHA_NUMERIC) }) } }] }) }
    InspectConfig := none
    Items := [{ Type_ := "text/plain", DataItem := some (.Data (bytesOf s)) }] }

/-- The function `deidentifyFPE`. -/
def deidentifyFPE (client : Client) (s wrappedKey cryptoKeyName : String) :
    Go Unit := do
  let rcr := deidentifyFPE_rcr s wrappedKey cryptoKeyName
  match ← client.callDeidentifyContent rcr with
  | .error err => logFatal err
  | .ok r =>
    r.GetItems.forM fun i =>
      Fprintf (i.GetData ++ bytesOf "\n")

/-- The function `main`. Its surroundings are the result of
`dlp.NewClient(ctx)`, the program name `os.Args[0]`, and the positional
arguments left by `flag.Parse()`. -/
def main (NewClient : Except GoError Client) (osArgs0 : String)
    (args : List String) : Go Unit :=
  match NewClient with
  | .error err => logFatal err
  | .ok client =>
    deferClose (
      match flagArg args 0 with
      | "inspect" => inspect client (flagArg args 1)
      | "redact" => redact client (flagArg args 1)
      | "infoTypes" => infoTypes client (flagArg args 1)
      | "categories" => categories client
      | "mask" => mask client (flagArg args 1)
      | "deidfpe" =>
        deidentifyFPE client (flagArg args 1) (flagArg args 2) (flagArg args 3)
      | _ => do
        FprintfStderr (bytesOf ("Usage: " ++ osArgs0 ++ " CMD \"string\"\\n"))
        osExit 1)

/-! ## Client doubles and other concrete inputs -/

/-- A world in which nothing has been written and no call issued. -/
def emptyWorld : World :=
  { out := [], err := [], calls := [], closed := false, logHeader := "" }

/-- A world whose output already holds a line. -/
def usedWorld : World :=
  { emptyWorld with out := bytesOf "before\n" }

/-- A finding of a social security number. -/
def ssnFinding : dlppb.Finding :=
  { Quote := "123-45-6789"
    InfoType := some { Name := "US_SOCIAL_SECURITY_NUMBER" }
    Likelihood := .VERY_LIKELY }

/-- A content item holding the given bytes. -/
def dataItem (b : Bytes) : dlppb.ContentItem :=
  { Type_ := "text/plain", DataItem := some (.Data b) }

/-- A client double with one canned response for each operation. -/
def cannedClient : Client :=
  { InspectContent := fun _ =>
      .ok { Results := [{ Findings := [ssnFinding], FindingsTruncated := false }] }
    RedactContent := fun _ =>
      .ok { Items := [dataItem (bytesOf "My SSN is [redacted]")] }
    DeidentifyContent := fun _ =>
      .ok { Items := [dataItem (bytesOf "My SSN is ***********"), dataItem (bytesOf "ok")] }
    ListInfoTypes := fun _ =>
      .ok { InfoTypes := [{ Name := "PHONE_NUMBER", DisplayName := "Phone number",
                            Categories := [] }] }
    ListRootCategories := fun _ =>
      .ok { Categories := [{ Name := "FINANCE", DisplayName := "Finance" }] } }

/-- A client double whose every operation returns an error. -/
def failingClient : Client :=
  { InspectContent := fun _ => .error { Error := "rpc error" }
    RedactContent := fun _ => .error { Error := "rpc error" }
    DeidentifyContent := fun _ => .error { Error := "rpc error" }
    ListInfoTypes := fun _ => .error { Error := "rpc error" }
    ListRootCategories := fun _ => .error { Error := "rpc error" } }

/-- An inspect response with two results: the first without findings, the
second with one. -/
def twoResults : dlppb.InspectContentResponse :=
  { Results := [{ Findings := [], FindingsTruncated := false },
                { Findings := [ssnFinding], FindingsTruncated := false }] }

/-- A client double answering with several results and several items. -/
def manyClient : Client :=
  { cannedClient with
    InspectContent := fun _ => .ok twoResults
    RedactContent := fun _ =>
      .ok { Items := [dataItem (bytesOf "first"), dataItem (bytesOf "second")] } }

/-- A client double answering successfully with empty lists. -/
def emptyClient : Client :=
  { InspectContent := fun _ => .ok { Results := [] }
    RedactContent := fun _ => .ok { Items := [] }
    DeidentifyContent := fun _ => .ok { Items := [] }
    ListInfoTypes := fun _ => .ok { InfoTypes := [] }
    ListRootCategories := fun _ => .ok { Categories := [] } }

/-! ## Notions used in the statements -/

/-- The subcommand names the dispatcher recognizes. -/
def subcommands : List String :=
  ["inspect", "redact", "infoTypes", "categories", "mask", "deidfpe"]

/-- Every finding contained in an inspect response, over all of its results, in
response order. -/
def allFindings (r : dlppb.InspectContentResponse) : List dlppb.Finding :=
  (r.Results.map fun x => x.Findings).flatten

/-- The line printed for a finding: its info-type name and a newline. -/
def findingLine (f : dlppb.Finding) : Bytes :=
  bytesOf (dlppb.InfoType.GetName f.InfoType) ++ bytesOf "\n"

/-- The line printed for a returned content item: its data and a newline. -/
def itemLine (i : dlppb.ContentItem) : Bytes :=
  i.GetData ++ bytesOf "\n"

/-! ## How the operations run -/

theorem Go.bind_apply {α β : Type} (m : Go α) (f : α → Go β) (w : World) :
    (m >>= f) w = Go.bind m f w := rfl

theorem Go.pure_apply {α : Type} (a : α) (w : World) :
    (Pure.pure a : Go α) w = (.ok a, w) := rfl

/-- A loop that prints one chunk per element appends the chunks in order. -/
theorem forM_Fprintf {α : Type} (g : α → Bytes) (xs : List α) (w : World) :
    (xs.forM fun x => Fprintf (g x)) w =
      (.ok (), { w with out := w.out ++ (xs.map g).flatten }) := by
  induction xs generalizing w with
  | nil => simp [List.forM, Go.pure_apply]
  | cons x xs ih =>
    have h : (x :: xs).forM (fun x => Fprintf (g x)) =
        (Fprintf (g x) >>= fun _ => xs.forM fun x => Fprintf (g x)) := rfl
    rw [h, Go.bind_apply]
    simp [Go.bind, Fprintf, ih, List.append_assoc]

/-- The UTF-8 bytes of a concatenation are the concatenation of the bytes. -/
theorem bytesOf_append (a b : String) : bytesOf (a ++ b) = bytesOf a ++ bytesOf b := by
  simp [bytesOf, String.toUTF8]

theorem inspect_run (client : Client) (s : String) (w : World) :
    inspect client s w =
      match client.InspectContent (inspect_rcr s) with
      | .error e =>
        (.error (.exit 1),
          { w with calls := w.calls ++ [.InspectContent (inspect_rcr s)]
                   err := w.err ++ logLine w.logHeader e.Error })
      | .ok r =>
        match r.Results with
        | [] =>
          (.error (.panic (.indexOutOfRange 0 0)),
            { w with calls := w.calls ++ [.InspectContent (inspect_rcr s)] })
        | r0 :: _ =>
          (.ok (),
            { w with calls := w.calls ++ [.InspectContent (inspect_rcr s)]
                     out := w.out ++ (r0.Findings.map fun f =>
                       bytesOf (dlppb.InfoType.GetName f.InfoType) ++ bytesOf "\n").flatten }) := by
  unfold inspect
  simp only [Go.bind_apply, Go.bind, Client.callInspectContent]
  cases h : client.InspectContent (inspect_rcr s) with
  | error e => simp [logFatal]
  | ok r =>
    cases hr : r.Results with
    | nil =>
      simp [index, dlppb.InspectContentResponse.GetResults, hr, Go.bind_apply, Go.bind]
    | cons r0 rest =>
      simp [index, dlppb.InspectContentResponse.GetResults, hr, forM_Fprintf,
        dlppb.InspectResult.GetFindings, dlppb.Finding.GetInfoType, Go.bind_apply, Go.bind]

theorem redact_run (client : Client) (s : String) (w : World) :
    redact client s w =
      match client.RedactContent (redact_rcr s) with
      | .error e =>
        (.error (.exit 1),
          { w with calls := w.calls ++ [.RedactContent (redact_rcr s)]
                   err := w.err ++ logLine w.logHeader e.Error })
      | .ok r =>
        match r.Items with
        | [] =>
          (.error (.panic (.indexOutOfRange 0 0)),
            { w with calls := w.calls ++ [.RedactContent (redact_rcr s)] })
        | i0 :: _ =>
          (.ok (),
            { w with calls := w.calls ++ [.RedactContent (redact_rcr s)]
                     out := w.out ++ (i0.GetData ++ bytesOf "\n") }) := by
  unfold redact
  simp only [Go.bind_apply, Go.bind, Client.callRedactContent]
  cases h : client.RedactContent (redact_rcr s) with
  | error e => simp [logFatal]
  | ok r =>
    cases hr : r.Items with
    | nil =>
      simp [index, dlppb.RedactContentResponse.GetItems, hr, Go.bind_apply, Go.bind]
    | cons i0 rest =>
      simp [index, dlppb.RedactContentResponse.GetItems, hr, Fprintf, Go.bind_apply, Go.bind]

theorem infoTypes_run (client : Client) (s : String) (w : World) :
    infoTypes client s w =
      match client.ListInfoTypes (infoTypes_rcr s) with
      | .error e =>
        (.error (.exit 1),
          { w with calls := w.calls ++ [.ListInfoTypes (infoTypes_rcr s)]
                   err := w.err ++ logLine w.logHeader e.Error })
      | .ok r =>
        (.ok (),
          { w with calls := w.calls ++ [.ListInfoTypes (infoTypes_rcr s)]
                   out := w.out ++ (r.InfoTypes.map fun it =>
                     bytesOf it.Name ++ bytesOf "\n").flatten }) := by
  unfold infoTypes
  simp only [Go.bind_apply, Go.bind, Client.callListInfoTypes]
  cases h : client.ListInfoTypes (infoTypes_rcr s) with
  | error e => simp [logFatal]
  | ok r =>
    simp [forM_Fprintf, dlppb.ListInfoTypesResponse.GetInfoTypes,
      dlppb.InfoTypeDescription.GetName]

theorem categories_run (client : Client) (w : World) :
    categories client w =
      match client.ListRootCategories categories_rcr with
      | .error e =>
        (.error (.exit 1),
          { w with calls := w.calls ++ [.ListRootCategories categories_rcr]
                   err := w.err ++ logLine w.logHeader e.Error })
      | .ok r =>
        (.ok (),
          { w with calls := w.calls ++ [.ListRootCategories categories_rcr]
                   out := w.out ++ (r.Categories.map fun c =>
                     bytesOf c.Name ++ bytesOf " (" ++ bytesOf c.DisplayName ++
                       bytesOf ")\n").flatten }) := by
  unfold categories
  simp only [Go.bind_apply, Go.bind, Client.callListRootCategories]
  cases h : client.ListRootCategories categories_rcr with
  | error e => simp [logFatal]
  | ok r =>
    simp [forM_Fprintf, dlppb.ListRootCategoriesResponse.GetCategories,
      dlppb.CategoryDescription.GetName, dlppb.CategoryDescription.GetDisplayName]

theorem mask_run (client : Client) (s : String) (w : World) :
    mask client s w =
      match client.DeidentifyContent (mask_rcr s) with
      | .error e =>
        (.error (.exit 1),
          { w with calls := w.calls ++ [.DeidentifyContent (mask_rcr s)]
                   err := w.err ++ logLine w.logHeader e.Error })
      | .ok r =>
        (.ok (),
          { w with calls := w.calls ++ [.DeidentifyContent (mask_rcr s)]
                   out := w.out ++ (r.Items.map fun i =>
                     i.GetData ++ bytesOf "\n").flatten }) := by
  unfold mask
  simp only [Go.bind_apply, Go.bind, Client.callDeidentifyContent]
  cases h : client.DeidentifyContent (mask_rcr s) with
  | error e => simp [logFatal]
  | ok r => simp [forM_Fprintf, dlppb.DeidentifyContentResponse.GetItems]

theorem deidentifyFPE_run (client : Client) (s wrappedKey cryptoKeyName : String)
    (w : World) :
    deidentifyFPE client s wrappedKey cryptoKeyName w =
      match client.DeidentifyContent (deidentifyFPE_rcr s wrappedKey cryptoKeyName) with
      | .error e =>
        (.error (.exit 1),
          { w with calls := w.calls ++
                     [.DeidentifyContent (deidentifyFPE_rcr s wrappedKey cryptoKeyName)]
                   err := w.err ++ logLine w.logHeader e.Error })
      | .ok r =>
        (.ok (),
          { w with calls := w.calls ++
                     [.DeidentifyContent (deidentifyFPE_rcr s wrappedKey cryptoKeyName)]
                   out := w.out ++ (r.Items.map fun i =>
                     i.GetData ++ bytesOf "\n").flatten }) := by
  unfold deidentifyFPE
  simp only [Go.bind_apply, Go.bind, Client.callDeidentifyContent]
  cases h : client.DeidentifyContent (deidentifyFPE_rcr s wrappedKey cryptoKeyName) with
  | error e => simp [logFatal]
  | ok r => simp [forM_Fprintf, dlppb.DeidentifyContentResponse.GetItems]

/-- The deferred close changes neither the outcome nor the output, the error
stream or the calls. -/
theorem deferClose_keeps (rest : Go Unit) (w : World) :
    (deferClose rest w).1 = (rest w).1 ∧
    (deferClose rest w).2.out = (rest w).2.out ∧
    (deferClose rest w).2.err = (rest w).2.err ∧
    (deferClose rest w).2.calls = (rest w).2.calls := by
  unfold deferClose
  rcases h : rest w with ⟨r, w1⟩
  cases r with
  | ok a => simp
  | error e => cases e <;> simp

theorem main_inspect (client : Client) (prog : String) (rest : List String) :
    main (.ok client) prog ("inspect" :: rest) =
      deferClose (inspect client (flagArg rest 0)) := by
  simp [main, flagArg]

theorem main_redact (client : Client) (prog : String) (rest : List String) :
    main (.ok client) prog ("redact" :: rest) =
      deferClose (redact client (flagArg rest 0)) := by
  simp [main, flagArg]

theorem main_infoTypes (client : Client) (prog : String) (rest : List String) :
    main (.ok client) prog ("infoTypes" :: rest) =
      deferClose (infoTypes client (flagArg rest 0)) := by
  simp [main, flagArg]

theorem main_categories (client : Client) (prog : String) (rest : List String) :
    main (.ok client) prog ("categories" :: rest) =
      deferClose (categories client) := by
  simp [main, flagArg]

theorem main_mask (client : Client) (prog : String) (rest : List String) :
    main (.ok client) prog ("mask" :: rest) =
      deferClose (mask client (flagArg rest 0)) := by
  simp [main, flagArg]

theorem main_deidfpe (client : Client) (prog : String) (rest : List String) :
    main (.ok client) prog ("deidfpe" :: rest) =
      deferClose (deidentifyFPE client (flagArg rest 0) (flagArg rest 1)
        (flagArg rest 2)) := by
  simp [main, flagArg]

theorem main_default (client : Client) (prog : String) (args : List String)
    (w : World)
    (h : flagArg args 0 ∉
      ["inspect", "redact", "infoTypes", "categories", "mask", "deidfpe"]) :
    main (.ok client) prog args w =
      (.error (.exit 1),
        { w with err := w.err ++ bytesOf ("Usage: " ++ prog ++ " CMD \"string\"\\n") }) := by
  simp only [List.mem_cons, List.mem_singleton, not_or, List.not_mem_nil,
    not_false_eq_true, and_true] at h
  obtain ⟨h1, h2, h3, h4, h5, h6⟩ := h
  simp [main, h1, h2, h3, h4, h5, h6, deferClose, Go.bind_apply, Go.bind,
    FprintfStderr, osExit]

/-! ## The claims -/

/-- C1: when the first positional argument is missing or is not a recognized
subcommand, `main` writes the usage message to the error stream, exits with
status 1, issues no remote call and writes nothing to the output. -/
theorem main_unrecognized_subcommand (client : Client) (prog : String)
    (args : List String) (w : World)
    (h : ∀ a, args.head? = some a → a ∉ subcommands) :
    (main (.ok client) prog args w).1 = .error (.exit 1) ∧
    (main (.ok client) prog args w).2.err =
      w.err ++ bytesOf ("Usage: " ++ prog ++ " CMD \"string\"\\n") ∧
    (main (.ok client) prog args w).2.calls = w.calls ∧
    (main (.ok client) prog args w).2.out = w.out := by
  have h0 : flagArg args 0 ∉
      ["inspect", "redact", "infoTypes", "categories", "mask", "deidfpe"] := by
    cases args with
    | nil => simp [flagArg]
    | cons a rest => simpa [flagArg, subcommands] using h a rfl
  rw [main_default client prog args w h0]
  exact ⟨rfl, rfl, rfl, rfl⟩

/-- C1 at the argument lists `["bogus"]` and `[]`. -/
theorem main_unrecognized_subcommand_witness :
    (∀ a, ["bogus"].head? = some a → a ∉ subcommands) ∧
    ((main (.ok cannedClient) "dlp" ["bogus"] emptyWorld).1 = .error (.exit 1) ∧
     (main (.ok cannedClient) "dlp" ["bogus"] emptyWorld).2.err =
       emptyWorld.err ++ bytesOf ("Usage: " ++ "dlp" ++ " CMD \"string\"\\n") ∧
     (main (.ok cannedClient) "dlp" ["bogus"] emptyWorld).2.calls = emptyWorld.calls ∧
     (main (.ok cannedClient) "dlp" ["bogus"] emptyWorld).2.out = emptyWorld.out) ∧
    (main (.ok cannedClient) "dlp" [] emptyWorld).1 = .error (.exit 1) :=
  have h : ∀ a, ["bogus"].head? = some a → a ∉ subcommands := by
    intro a ha
    simp only [List.head?_cons, Option.some.injEq] at ha
    subst ha
    decide
  ⟨h, main_unrecognized_subcommand cannedClient "dlp" ["bogus"] emptyWorld h,
    (main_unrecognized_subcommand cannedClient "dlp" [] emptyWorld
      (by intro a ha; simp at ha)).1⟩

/-- C2: for each recognized subcommand and any further arguments, one run of
`main` issues exactly one remote call, the operation of that subcommand
(`inspect` to InspectContent, `redact` to RedactContent, `mask` and `deidfpe`
to DeidentifyContent, `infoTypes` to ListInfoTypes, `categories` to
ListRootCategories), whatever the client answers. -/
theorem main_issues_one_call (client : Client) (prog : String)
    (rest : List String) (w : World) :
    (main (.ok client) prog ("inspect" :: rest) w).2.calls =
      w.calls ++ [.InspectContent (inspect_rcr (flagArg ("inspect" :: rest) 1))] ∧
    (main (.ok client) prog ("redact" :: rest) w).2.calls =
      w.calls ++ [.RedactContent (redact_rcr (flagArg ("redact" :: rest) 1))] ∧
    (main (.ok client) prog ("mask" :: rest) w).2.calls =
      w.calls ++ [.DeidentifyContent (mask_rcr (flagArg ("mask" :: rest) 1))] ∧
    (main (.ok client) prog ("deidfpe" :: rest) w).2.calls =
      w.calls ++ [.DeidentifyContent (deidentifyFPE_rcr
        (flagArg ("deidfpe" :: rest) 1) (flagArg ("deidfpe" :: rest) 2)
        (flagArg ("deidfpe" :: rest) 3))] ∧
    (main (.ok client) prog ("infoTypes" :: rest) w).2.calls =
      w.calls ++ [.ListInfoTypes (infoTypes_rcr (flagArg ("infoTypes" :: rest) 1))] ∧
    (main (.ok client) prog ("categories" :: rest) w).2.calls =
      w.calls ++ [.ListRootCategories categories_rcr] := by
  refine ⟨?_, ?_, ?_, ?_, ?_, ?_⟩
  · rw [main_inspect, (deferClose_keeps _ _).2.2.2, inspect_run]
    split
    · rfl
    · split <;> rfl
  · rw [main_redact, (deferClose_keeps _ _).2.2.2, redact_run]
    split
    · rfl
    · split <;> rfl
  · rw [main_mask, (deferClose_keeps _ _).2.2.2, mask_run]
    split <;> rfl
  · rw [main_deidfpe, (deferClose_keeps _ _).2.2.2, deidentifyFPE_run]
    split <;> rfl
  · rw [main_infoTypes, (deferClose_keeps _ _).2.2.2, infoTypes_run]
    split <;> rfl
  · rw [main_categories, (deferClose_keeps _ _).2.2.2, categories_run]
    split <;> rfl

/-- C3: for each of the six operations, when the remote call returns an error
the operation logs it and exits with status 1, and the output is exactly what
it was before the call. -/
theorem remote_error_is_fatal (client : Client) (s wrappedKey cryptoKeyName : String)
    (w : World) (e : GoError) :
    (client.InspectContent (inspect_rcr s) = .error e →
      (inspect client s w).1 = .error (.exit 1) ∧
      (inspect client s w).2.out = w.out ∧
      (inspect client s w).2.err = w.err ++ logLine w.logHeader e.Error) ∧
    (client.RedactContent (redact_rcr s) = .error e →
      (redact client s w).1 = .error (.exit 1) ∧
      (redact client s w).2.out = w.out ∧
      (redact client s w).2.err = w.err ++ logLine w.logHeader e.Error) ∧
    (client.ListInfoTypes (infoTypes_rcr s) = .error e →
      (infoTypes client s w).1 = .error (.exit 1) ∧
      (infoTypes client s w).2.out = w.out ∧
      (infoTypes client s w).2.err = w.err ++ logLine w.logHeader e.Error) ∧
    (client.ListRootCategories categories_rcr = .error e →
      (categories client w).1 = .error (.exit 1) ∧
      (categories client w).2.out = w.out ∧
      (categories client w).2.err = w.err ++ logLine w.logHeader e.Error) ∧
    (client.DeidentifyContent (mask_rcr s) = .error e →
      (mask client s w).1 = .error (.exit 1) ∧
      (mask client s w).2.out = w.out ∧
      (mask client s w).2.err = w.err ++ logLine w.logHeader e.Error) ∧
    (client.DeidentifyContent (deidentifyFPE_rcr s wrappedKey cryptoKeyName) = .error e →
      (deidentifyFPE client s wrappedKey cryptoKeyName w).1 = .error (.exit 1) ∧
      (deidentifyFPE client s wrappedKey cryptoKeyName w).2.out = w.out ∧
      (deidentifyFPE client s wrappedKey cryptoKeyName w).2.err =
        w.err ++ logLine w.logHeader e.Error) := by
  refine ⟨?_, ?_, ?_, ?_, ?_, ?_⟩
  · intro h
    rw [inspect_run, h]
    exact ⟨rfl, rfl, rfl⟩
  · intro h
    rw [redact_run, h]
    exact ⟨rfl, rfl, rfl⟩
  · intro h
    rw [infoTypes_run, h]
    exact ⟨rfl, rfl, rfl⟩
  · intro h
    rw [categories_run, h]
    exact ⟨rfl, rfl, rfl⟩
  · intro h
    rw [mask_run, h]
    exact ⟨rfl, rfl, rfl⟩
  · intro h
    rw [deidentifyFPE_run, h]
    exact ⟨rfl, rfl, rfl⟩

/-- C3 at a client whose every operation fails, on a world that already holds
output. -/
theorem remote_error_is_fatal_witness :
    (failingClient.InspectContent (inspect_rcr "My SSN is 123-45-6789") =
        .error { Error := "rpc error" } ∧
     (inspect failingClient "My SSN is 123-45-6789" usedWorld).1 = .error (.exit 1) ∧
     (inspect failingClient "My SSN is 123-45-6789" usedWorld).2.out = usedWorld.out) ∧
    (failingClient.RedactContent (redact_rcr "My SSN is 123-45-6789") =
        .error { Error := "rpc error" } ∧
     (redact failingClient "My SSN is 123-45-6789" usedWorld).1 = .error (.exit 1) ∧
     (redact failingClient "My SSN is 123-45-6789" usedWorld).2.out = usedWorld.out) ∧
    (failingClient.ListInfoTypes (infoTypes_rcr "My SSN is 123-45-6789") =
        .error { Error := "rpc error" } ∧
     (infoTypes failingClient "My SSN is 123-45-6789" usedWorld).1 = .error (.exit 1) ∧
     (infoTypes failingClient "My SSN is 123-45-6789" usedWorld).2.out = usedWorld.out) ∧
    (failingClient.ListRootCategories categories_rcr =
        .error { Error := "rpc error" } ∧
     (categories failingClient usedWorld).1 = .error (.exit 1) ∧
     (categories failingClient usedWorld).2.out = usedWorld.out) ∧
    (failingClient.DeidentifyContent (mask_rcr "My SSN is 123-45-6789") =
        .error { Error := "rpc error" } ∧
     (mask failingClient "My SSN is 123-45-6789" usedWorld).1 = .error (.exit 1) ∧
     (mask failingClient "My SSN is 123-45-6789" usedWorld).2.out = usedWorld.out) ∧
    (failingClient.DeidentifyContent
        (deidentifyFPE_rcr "My SSN is 123-45-6789" "key" "name") =
        .error { Error := "rpc error" } ∧
     (deidentifyFPE failingClient "My SSN is 123-45-6789" "key" "name" usedWorld).1 =
        .error (.exit 1) ∧
     (deidentifyFPE failingClient "My SSN is 123-45-6789" "key" "name" usedWorld).2.out =
        usedWorld.out) ∧
    usedWorld.out = bytesOf "before\n" :=
  have t := remote_error_is_fatal failingClient "My SSN is 123-45-6789" "key" "name"
    usedWorld { Error := "rpc error" }
  ⟨⟨rfl, (t.1 rfl).1, (t.1 rfl).2.1⟩,
   ⟨rfl, (t.2.1 rfl).1, (t.2.1 rfl).2.1⟩,
   ⟨rfl, (t.2.2.1 rfl).1, (t.2.2.1 rfl).2.1⟩,
   ⟨rfl, (t.2.2.2.1 rfl).1, (t.2.2.2.1 rfl).2.1⟩,
   ⟨rfl, (t.2.2.2.2.1 rfl).1, (t.2.2.2.2.1 rfl).2.1⟩,
   ⟨rfl, (t.2.2.2.2.2 rfl).1, (t.2.2.2.2.2 rfl).2.1⟩,
   rfl⟩

/-- C4, as stated, fails: for a successful response with two results, the
first without findings and the second with one finding, `inspect` returns
having printed nothing, although the response contains a finding. -/
theorem inspect_ignores_later_results :
    manyClient.InspectContent (inspect_rcr "My SSN is 123-45-6789") = .ok twoResults ∧
    allFindings twoResults = [ssnFinding] ∧
    (inspect manyClient "My SSN is 123-45-6789" emptyWorld).1 = .ok () ∧
    (inspect manyClient "My SSN is 123-45-6789" emptyWorld).2.out = [] ∧
    (inspect manyClient "My SSN is 123-45-6789" emptyWorld).2.out ≠
      emptyWorld.out ++ ((allFindings twoResults).map findingLine).flatten :=
  ⟨rfl, rfl, rfl, rfl, by decide⟩

/-- C4, amended: for a successful response whose list of results is not
empty, `inspect` returns having appended to the output one line per finding of
the first result, in order, each line the info-type name of the finding and a
newline, and nothing else. -/
theorem inspect_prints_first_result (client : Client) (s : String) (w : World)
    (r : dlppb.InspectContentResponse) (r0 : dlppb.InspectResult)
    (rest : List dlppb.InspectResult)
    (h : client.InspectContent (inspect_rcr s) = .ok r)
    (hr : r.Results = r0 :: rest) :
    (inspect client s w).1 = .ok () ∧
    (inspect client s w).2.out = w.out ++ (r0.Findings.map findingLine).flatten := by
  rw [inspect_run, h]
  simp only [hr]
  exact ⟨trivial, rfl⟩

/-- C4, amended, at the response with one finding named
`US_SOCIAL_SECURITY_NUMBER`, which prints exactly that line. -/
theorem inspect_prints_first_result_witness :
    cannedClient.InspectContent (inspect_rcr "My SSN is 123-45-6789") =
      .ok { Results := [{ Findings := [ssnFinding], FindingsTruncated := false }] } ∧
    ((inspect cannedClient "My SSN is 123-45-6789" emptyWorld).1 = .ok () ∧
     (inspect cannedClient "My SSN is 123-45-6789" emptyWorld).2.out =
       emptyWorld.out ++ ([ssnFinding].map findingLine).flatten) ∧
    emptyWorld.out ++ ([ssnFinding].map findingLine).flatten =
      bytesOf "US_SOCIAL_SECURITY_NUMBER\n" :=
  ⟨rfl,
   inspect_prints_first_result cannedClient "My SSN is 123-45-6789" emptyWorld
     { Results := [{ Findings := [ssnFinding], FindingsTruncated := false }] }
     { Findings := [ssnFinding], FindingsTruncated := false } [] rfl rfl,
   by decide⟩

/-- C5: for a successful response whose first item carries the redacted text
`t`, `redact` returns having appended to the output exactly the bytes of `t`
and one newline. -/
theorem redact_prints_text (client : Client) (s : String) (w : World)
    (r : dlppb.RedactContentResponse) (ty : String) (t : Bytes)
    (rest : List dlppb.ContentItem)
    (h : client.RedactContent (redact_rcr s) = .ok r)
    (hr : r.Items = { Type_ := ty, DataItem := some (.Data t) } :: rest) :
    (redact client s w).1 = .ok () ∧
    (redact client s w).2.out = w.out ++ t ++ bytesOf "\n" := by
  rw [redact_run, h]
  simp only [hr]
  refine ⟨trivial, ?_⟩
  simp [dlppb.ContentItem.GetData]

/-- C5 at the text `My SSN is 123-45-6789` with the canned response
`My SSN is [redacted]`. -/
theorem redact_prints_text_witness :
    cannedClient.RedactContent (redact_rcr "My SSN is 123-45-6789") =
      .ok { Items := [dataItem (bytesOf "My SSN is [redacted]")] } ∧
    ((redact cannedClient "My SSN is 123-45-6789" emptyWorld).1 = .ok () ∧
     (redact cannedClient "My SSN is 123-45-6789" emptyWorld).2.out =
       emptyWorld.out ++ bytesOf "My SSN is [redacted]" ++ bytesOf "\n") ∧
    emptyWorld.out ++ bytesOf "My SSN is [redacted]" ++ bytesOf "\n" =
      bytesOf "My SSN is [redacted]\n" :=
  ⟨rfl,
   redact_prints_text cannedClient "My SSN is 123-45-6789" emptyWorld
     { Items := [dataItem (bytesOf "My SSN is [redacted]")] } "text/plain"
     (bytesOf "My SSN is [redacted]") [] rfl rfl,
   by decide⟩

/-- C6: for a successful response, `categories` returns having appended to the
output one line per category, in response order, each line the name, a space,
the display name in parentheses and a newline, and nothing else. -/
theorem categories_prints_lines (client : Client) (w : World)
    (r : dlppb.ListRootCategoriesResponse)
    (h : client.ListRootCategories categories_rcr = .ok r) :
    (categories client w).1 = .ok () ∧
    (categories client w).2.out = w.out ++ (r.Categories.map fun c =>
      bytesOf (c.Name ++ " (" ++ c.DisplayName ++ ")" ++ "\n")).flatten := by
  have e : bytesOf ")\n" = bytesOf ")" ++ bytesOf "\n" := by decide
  rw [categories_run, h]
  refine ⟨rfl, ?_⟩
  simp [bytesOf_append, List.append_assoc, e]

/-- C6 at the response with the one category `FINANCE` (`Finance`), and at the
response without categories. -/
theorem categories_prints_lines_witness :
    cannedClient.ListRootCategories categories_rcr =
      .ok { Categories := [{ Name := "FINANCE", DisplayName := "Finance" }] } ∧
    ((categories cannedClient emptyWorld).1 = .ok () ∧
     (categories cannedClient emptyWorld).2.out =
       emptyWorld.out ++ (([{ Name := "FINANCE", DisplayName := "Finance" }] :
         List dlppb.CategoryDescription).map fun c =>
           bytesOf (c.Name ++ " (" ++ c.DisplayName ++ ")" ++ "\n")).flatten) ∧
    (categories cannedClient emptyWorld).2.out = bytesOf "FINANCE (Finance)\n" ∧
    (categories emptyClient emptyWorld).2.out = [] :=
  ⟨rfl,
   categories_prints_lines cannedClient emptyWorld
     { Categories := [{ Name := "FINANCE", DisplayName := "Finance" }] } rfl,
   by decide,
   (categories_prints_lines emptyClient emptyWorld { Categories := [] } rfl).2⟩

/-- C7: for every text, the request `inspect` sends and the request `redact`
sends carry the same inspection configuration, the info-type list holding only
`US_SOCIAL_SECURITY_NUMBER` with an unspecified minimum likelihood, and one
content item whose data is the bytes of the text; the `redact` request also
carries one replacement rule, from `US_SOCIAL_SECURITY_NUMBER` to the literal
`[redacted]`. -/
theorem inspect_redact_requests (client : Client) (s : String) (w : World) :
    ∃ (ri : dlppb.InspectContentRequest) (rr : dlppb.RedactContentRequest),
      (inspect client s w).2.calls = w.calls ++ [.InspectContent ri] ∧
      (redact client s w).2.calls = w.calls ++ [.RedactContent rr] ∧
      ri.InspectConfig = rr.InspectConfig ∧
      ri.InspectConfig = some
        { InfoTypes := [{ Name := "US_SOCIAL_SECURITY_NUMBER" }]
          MinLikelihood := .LIKELIHOOD_UNSPECIFIED } ∧
      ri.Items = [{ Type_ := "text/plain", DataItem := some (.Data (bytesOf s)) }] ∧
      rr.Items = [{ Type_ := "text/plain", DataItem := some (.Data (bytesOf s)) }] ∧
      rr.ReplaceConfigs =
        [{ InfoType := some { Name := "US_SOCIAL_SECURITY_NUMBER" }
           ReplaceWith := "[redacted]" }] := by
  refine ⟨inspect_rcr s, redact_rcr s, ?_, ?_, rfl, rfl, rfl, rfl, rfl⟩
  · rw [inspect_run]
    split
    · rfl
    · split <;> rfl
  · rw [redact_run]
    split
    · rfl
    · split <;> rfl

/-- C8: for every text, `mask` sends one request with exactly one info-type
transformation, whose info-type list is empty and whose primitive
transformation is a character mask with masking character `*`, and with one
content item whose data is the bytes of the text; and for a successful response
it returns having appended to the output one line per returned item, in order,
each the data of the item and a newline. -/
theorem mask_request_and_output (client : Client) (s : String) (w : World) :
    (∃ rq : dlppb.DeidentifyContentRequest,
      (mask client s w).2.calls = w.calls ++ [.DeidentifyContent rq] ∧
      rq.DeidentifyConfig = some
        { Transformation := some (.InfoTypeTransformations
            { Transformations :=
                [{ InfoTypes := []
                   PrimitiveTransformation := some
                     { Transformation := some (.CharacterMaskConfig
                         { MaskingCharacter := "*" }) } }] }) } ∧
      rq.InspectConfig = none ∧
      rq.Items = [{ Type_ := "text/plain", DataItem := some (.Data (bytesOf s)) }]) ∧
    (∀ r : dlppb.DeidentifyContentResponse,
      client.DeidentifyContent (mask_rcr s) = .ok r →
      (mask client s w).1 = .ok () ∧
      (mask client s w).2.out = w.out ++ (r.Items.map itemLine).flatten) := by
  constructor
  · refine ⟨mask_rcr s, ?_, rfl, rfl, rfl⟩
    rw [mask_run]
    split <;> rfl
  · intro r h
    rw [mask_run, h]
    exact ⟨rfl, rfl⟩

/-- C8 at a canned response with two items. -/
theorem mask_request_and_output_witness :
    cannedClient.DeidentifyContent (mask_rcr "My SSN is 123-45-6789") =
      .ok { Items := [dataItem (bytesOf "My SSN is ***********"),
                      dataItem (bytesOf "ok")] } ∧
    ((mask cannedClient "My SSN is 123-45-6789" emptyWorld).1 = .ok () ∧
     (mask cannedClient "My SSN is 123-45-6789" emptyWorld).2.out =
       emptyWorld.out ++ ([dataItem (bytesOf "My SSN is ***********"),
         dataItem (bytesOf "ok")].map itemLine).flatten) ∧
    (mask cannedClient "My SSN is 123-45-6789" emptyWorld).2.out =
      bytesOf "My SSN is ***********\nok\n" :=
  ⟨rfl,
   (mask_request_and_output cannedClient "My SSN is 123-45-6789" emptyWorld).2
     { Items := [dataItem (bytesOf "My SSN is ***********"), dataItem (bytesOf "ok")] }
     rfl,
   by decide⟩

/-- C9: for every text, wrapped key and key name, `deidentifyFPE` sends one
request with exactly one transformation, a format-preserving-encryption
configuration whose key is KMS-wrapped with the bytes of the wrapped key and the
key name as given and whose alphabet is the common alphanumeric one, and with
one content item whose data is the bytes of the text; `main` hands it its
positional arguments 1, 2 and 3 in that order; and for a successful response it
returns having appended to the output one line per returned item, in order. -/
theorem deidentifyFPE_request_and_output (client : Client)
    (s wrappedKey cryptoKeyName : String) (w : World) :
    (∃ rq : dlppb.DeidentifyContentRequest,
      (deidentifyFPE client s wrappedKey cryptoKeyName w).2.calls =
        w.calls ++ [.DeidentifyContent rq] ∧
      rq.DeidentifyConfig = some
        { Transformation := some (.InfoTypeTransformations
            { Transformations :=
                [{ InfoTypes := []
                   PrimitiveTransformation := some
                     { Transformation := some (.CryptoReplaceFfxFpeConfig
                         { CryptoKey := some
                             { Source := some (.KmsWrapped
                                 { WrappedKey := bytesOf wrappedKey
                                   CryptoKeyName := cryptoKeyName }) }
                           Alphabet := some (.CommonAlphabet .ALPHA_NUMERIC) }) } }] }) } ∧
      rq.InspectConfig = none ∧
      rq.Items = [{ Type_ := "text/plain", DataItem := some (.Data (bytesOf s)) }]) ∧
    (∀ (prog : String) (rest : List String),
      main (.ok client) prog ("deidfpe" :: s :: wrappedKey :: cryptoKeyName :: rest) =
        deferClose (deidentifyFPE client s wrappedKey cryptoKeyName)) ∧
    (∀ r : dlppb.DeidentifyContentResponse,
      client.DeidentifyContent (deidentifyFPE_rcr s wrappedKey cryptoKeyName) = .ok r →
      (deidentifyFPE client s wrappedKey cryptoKeyName w).1 = .ok () ∧
      (deidentifyFPE client s wrappedKey cryptoKeyName w).2.out =
        w.out ++ (r.Items.map itemLine).flatten) := by
  refine ⟨?_, ?_, ?_⟩
  · refine ⟨deidentifyFPE_rcr s wrappedKey cryptoKeyName, ?_, rfl, rfl, rfl⟩
    rw [deidentifyFPE_run]
    split <;> rfl
  · intro prog rest
    rw [main_deidfpe]
    rfl
  · intro r h
    rw [deidentifyFPE_run, h]
    exact ⟨rfl, rfl⟩

/-- C9 at a canned response with two items, and `main` run on four positional
arguments. -/
theorem deidentifyFPE_request_and_output_witness :
    cannedClient.DeidentifyContent (deidentifyFPE_rcr "My SSN is 123-45-6789" "key" "name") =
      .ok { Items := [dataItem (bytesOf "My SSN is ***********"),
                      dataItem (bytesOf "ok")] } ∧
    ((deidentifyFPE cannedClient "My SSN is 123-45-6789" "key" "name" emptyWorld).1 = .ok () ∧
     (deidentifyFPE cannedClient "My SSN is 123-45-6789" "key" "name" emptyWorld).2.out =
       emptyWorld.out ++ ([dataItem (bytesOf "My SSN is ***********"),
         dataItem (bytesOf "ok")].map itemLine).flatten) ∧
    (main (.ok cannedClient) "dlp" ["deidfpe", "My SSN is 123-45-6789", "key", "name"]
        emptyWorld).2.calls =
      [.DeidentifyContent (deidentifyFPE_rcr "My SSN is 123-45-6789" "key" "name")] ∧
    (main (.ok cannedClient) "dlp" ["deidfpe", "My SSN is 123-45-6789", "key", "name"]
        emptyWorld).2.out = bytesOf "My SSN is ***********\nok\n" :=
  ⟨rfl,
   (deidentifyFPE_request_and_output cannedClient "My SSN is 123-45-6789" "key" "name"
     emptyWorld).2.2
     { Items := [dataItem (bytesOf "My SSN is ***********"), dataItem (bytesOf "ok")] }
     rfl,
   by decide, by decide⟩

/-- C10: `inspect` reads index 0 of the results of the response and `redact`
index 0 of its items. When the list is not empty the operation returns and what
it prints is fixed by the first element alone; when the list is empty the
operation panics with index out of range, having written nothing. -/
theorem index_zero_of_response (client : Client) (s : String) (w : World) :
    (∀ (r : dlppb.InspectContentResponse) (r0 : dlppb.InspectResult)
        (rest : List dlppb.InspectResult),
      client.InspectContent (inspect_rcr s) = .ok r → r.Results = r0 :: rest →
      (inspect client s w).1 = .ok () ∧
      (inspect client s w).2.out = w.out ++ (r0.Findings.map findingLine).flatten) ∧
    (∀ r : dlppb.InspectContentResponse,
      client.InspectContent (inspect_rcr s) = .ok r → r.Results = [] →
      (inspect client s w).1 = .error (.panic (.indexOutOfRange 0 0)) ∧
      (inspect client s w).2.out = w.out) ∧
    (∀ (r : dlppb.RedactContentResponse) (i0 : dlppb.ContentItem)
        (rest : List dlppb.ContentItem),
      client.RedactContent (redact_rcr s) = .ok r → r.Items = i0 :: rest →
      (redact client s w).1 = .ok () ∧
      (redact client s w).2.out = w.out ++ itemLine i0) ∧
    (∀ r : dlppb.RedactContentResponse,
      client.RedactContent (redact_rcr s) = .ok r → r.Items = [] →
      (redact client s w).1 = .error (.panic (.indexOutOfRange 0 0)) ∧
      (redact client s w).2.out = w.out) := by
  refine ⟨?_, ?_, ?_, ?_⟩
  · intro r r0 rest h hr
    rw [inspect_run, h]
    simp only [hr]
    exact ⟨trivial, rfl⟩
  · intro r h hr
    rw [inspect_run, h]
    simp only [hr]
    exact ⟨trivial, trivial⟩
  · intro r i0 rest h hr
    rw [redact_run, h]
    simp only [hr]
    exact ⟨trivial, rfl⟩
  · intro r h hr
    rw [redact_run, h]
    simp only [hr]
    exact ⟨trivial, trivial⟩

/-- C10 at a client answering with several results and items, and at a client
answering with empty lists. -/
theorem index_zero_of_response_witness :
    ((inspect manyClient "My SSN is 123-45-6789" usedWorld).1 = .ok () ∧
     (inspect manyClient "My SSN is 123-45-6789" usedWorld).2.out =
       usedWorld.out ++ (([] : List dlppb.Finding).map findingLine).flatten) ∧
    ((inspect emptyClient "My SSN is 123-45-6789" usedWorld).1 =
       .error (.panic (.indexOutOfRange 0 0)) ∧
     (inspect emptyClient "My SSN is 123-45-6789" usedWorld).2.out = usedWorld.out) ∧
    ((redact manyClient "My SSN is 123-45-6789" usedWorld).1 = .ok () ∧
     (redact manyClient "My SSN is 123-45-6789" usedWorld).2.out =
       usedWorld.out ++ itemLine (dataItem (bytesOf "first"))) ∧
    ((redact emptyClient "My SSN is 123-45-6789" usedWorld).1 =
       .error (.panic (.indexOutOfRange 0 0)) ∧
     (redact emptyClient "My SSN is 123-45-6789" usedWorld).2.out = usedWorld.out) ∧
    (redact manyClient "My SSN is 123-45-6789" usedWorld).2.out =
      bytesOf "before\nfirst\n" :=
  ⟨(index_zero_of_response manyClient "My SSN is 123-45-6789" usedWorld).1
     twoResults { Findings := [], FindingsTruncated := false }
     [{ Findings := [ssnFinding], FindingsTruncated := false }] rfl rfl,
   (index_zero_of_response emptyClient "My SSN is 123-45-6789" usedWorld).2.1
     { Results := [] } rfl rfl,
   (index_zero_of_response manyClient "My SSN is 123-45-6789" usedWorld).2.2.1
     { Items := [dataItem (bytesOf "first"), dataItem (bytesOf "second")] }
     (dataItem (bytesOf "first")) [dataItem (bytesOf "second")] rfl rfl,
   (index_zero_of_response emptyClient "My SSN is 123-45-6789" usedWorld).2.2.2
     { Items := [] } rfl rfl,
   by decide⟩

end Dlp
